import Mathlib

/-!
Shallow embedding of the physics core of the Sailing-Boat simulation.

The repository holds three JavaScript source variants:
* `main.js` — the wind-propulsion model (`Forces` and a wind-driven `Boat`);
* `unnamed/part_000` — a near-duplicate of `main.js` whose `computeWindForce`
  uses `|cos(sailAngle)|` with no clamping;
* `unnamed/part_001` — the thrust-propulsion model (buoyancy from submersion
  depth, floor clamp, torque-driven yaw, and an impulse collision resolver
  against a `Sphere`).

Real numbers stand in for JavaScript floating-point numbers, and THREE.js
vector methods are embedded componentwise.  One THREE.js-specific behaviour is
reproduced exactly: `Vector3.multiplyScalar` and `Vector3.divideScalar` mutate
the receiver in place, so in `handleCollision` the second `divideScalar` call
acts on a vector that has already been divided by the first body's mass.
-/

noncomputable section

open scoped Classical

namespace Sailing

/-- three-dimensional vector with real components, mirroring `THREE.Vector3`. -/
@[ext]
structure Vec3 where
  x : ℝ
  y : ℝ
  z : ℝ

/-- componentwise vector addition (`THREE.Vector3.add`). -/
def Vec3.add (a b : Vec3) : Vec3 := ⟨a.x + b.x, a.y + b.y, a.z + b.z⟩

/-- componentwise vector subtraction (`THREE.Vector3.sub` / `subVectors`). -/
def Vec3.sub (a b : Vec3) : Vec3 := ⟨a.x - b.x, a.y - b.y, a.z - b.z⟩

/-- scalar multiplication (`THREE.Vector3.multiplyScalar`). -/
def Vec3.multiplyScalar (v : Vec3) (s : ℝ) : Vec3 := ⟨v.x * s, v.y * s, v.z * s⟩

/-- scalar division; THREE implements it as multiplication by `1 / s`. -/
def Vec3.divideScalar (v : Vec3) (s : ℝ) : Vec3 := v.multiplyScalar (1 / s)

/-- dot product (`THREE.Vector3.dot`). -/
def Vec3.dot (a b : Vec3) : ℝ := a.x * b.x + a.y * b.y + a.z * b.z

/-- squared Euclidean length (`THREE.Vector3.lengthSq`). -/
def Vec3.lengthSq (v : Vec3) : ℝ := v.x * v.x + v.y * v.y + v.z * v.z

/-- Euclidean length (`THREE.Vector3.length`). -/
def Vec3.length (v : Vec3) : ℝ := Real.sqrt v.lengthSq

/-- the zero vector, `new THREE.Vector3()`. -/
def Vec3.zero : Vec3 := ⟨0, 0, 0⟩

/-- distance between two points (`THREE.Vector3.distanceTo`). -/
def Vec3.distanceTo (a b : Vec3) : ℝ := (a.sub b).length

/-- normalization; THREE divides by `this.length() || 1`, so the zero vector
is left unchanged rather than producing a division by zero. -/
def Vec3.normalize (v : Vec3) : Vec3 :=
  v.divideScalar (if v.length = 0 then 1 else v.length)

/-- a body as read and written by the collision routine of `part_001`:
`position`, `velocity` and `mass` (the boat contributes `this.boat.position`,
`this.velocity`, `this.mass`; the sphere contributes `object.position`,
`velocity`, `mass`). -/
structure CollisionBody where
  position : Vec3
  velocity : Vec3
  mass : ℝ

/-- relative velocity of `a` with respect to `b` projected on the collision
normal `normalize (position a - position b)`, exactly the quantity
`velocityAlongNormal` computed inside `handleCollision`. -/
def velocityAlongNormal (a b : CollisionBody) : ℝ :=
  (a.velocity.sub b.velocity).dot ((a.position.sub b.position).normalize)

/-- impulse response of `Boat.handleCollision` in `part_001`.  When the bodies
are separating (`velocityAlongNormal > 0`) the routine returns early.
Otherwise it computes `impulseScalar`, scales the normal by it in place, and
applies it to both velocities.  Because `divideScalar` mutates the shared
`impulse` vector, the amount subtracted from `b` is
`impulse / (mass a * mass b)`, not `impulse / mass b`; `impulseA` and
`impulseB` reproduce this sequencing. -/
def handleCollision (a b : CollisionBody) : CollisionBody × CollisionBody :=
  if velocityAlongNormal a b > 0 then (a, b)
  else
    let normal := (a.position.sub b.position).normalize
    let restitution : ℝ := 0.7
    let impulseScalar :=
      -(1 + restitution) * velocityAlongNormal a b / (1 / a.mass + 1 / b.mass)
    let impulse := normal.multiplyScalar impulseScalar
    let impulseA := impulse.divideScalar a.mass
    let impulseB := impulseA.divideScalar b.mass
    ({ a with velocity := a.velocity.add impulseA },
     { b with velocity := b.velocity.sub impulseB })

/-- body A of the golden collision scenario of the spec: mass 500,
velocity `(0, 0, -5)`, placed on the z-axis above body B. -/
def goldenA : CollisionBody := ⟨⟨0, 0, 0⟩, ⟨0, 0, -5⟩, 500⟩

/-- body B of the golden collision scenario: mass 500, at rest, 10 units below
body A on the z-axis, so the collision normal is `(0, 0, 1)`. -/
def goldenB : CollisionBody := ⟨⟨0, 0, -10⟩, ⟨0, 0, 0⟩, 500⟩

/-- a separating pair: same geometry as the golden scenario but body A moves
away from body B along the normal. -/
def sepA : CollisionBody := ⟨⟨0, 0, 0⟩, ⟨0, 0, 3⟩, 500⟩

/-- companion of `sepA`, at rest below it. -/
def sepB : CollisionBody := ⟨⟨0, 0, -10⟩, ⟨0, 0, 0⟩, 500⟩

/-- gravity constant of the wind model (`main.js`, `part_000`). -/
def GRAVITY_ACCELERATION : ℝ := 9.81

/-- gravity constant of the thrust model (`part_001`). -/
def g : ℝ := 9.8

/-- configuration stored by the `Forces` constructor of `main.js`; fields are
assigned exactly as given, with no validation. -/
structure Forces where
  mass : ℝ
  volumeDisplaced : ℝ
  fluidDensity : ℝ
  dragCoefficient : ℝ

/-- gravity force vector stored at construction:
`(0, -GRAVITY_ACCELERATION * mass, 0)`. -/
def Forces.gravity (f : Forces) : Vec3 :=
  ⟨0, -GRAVITY_ACCELERATION * f.mass, 0⟩

/-- `Forces.computeBuoyancy`: upward force of magnitude
`fluidDensity * volumeDisplaced * GRAVITY_ACCELERATION`. -/
def Forces.computeBuoyancy (f : Forces) : Vec3 :=
  ⟨0, f.fluidDensity * f.volumeDisplaced * GRAVITY_ACCELERATION, 0⟩

/-- buoyancy force stored at construction (`this.buoyancy = computeBuoyancy()`). -/
def Forces.buoyancy (f : Forces) : Vec3 := f.computeBuoyancy

/-- `Forces.computeAirResistance`: `-dragCoefficient * velocity`. -/
def Forces.computeAirResistance (f : Forces) (velocity : Vec3) : Vec3 :=
  velocity.multiplyScalar (-f.dragCoefficient)

/-- `Forces.computeWaterResistance`: `-dragCoefficient * 2 * velocity`. -/
def Forces.computeWaterResistance (f : Forces) (velocity : Vec3) : Vec3 :=
  velocity.multiplyScalar (-f.dragCoefficient * 2)

namespace MainVariant

/-- `Forces.computeWindForce` of `main.js`: clamp the sail angle into
`[0, pi/2]`, take `|sin|` of it as effectiveness, scale the wind direction. -/
def computeWindForce (windDirection : Vec3) (sailAngle : ℝ) : Vec3 :=
  let clamped := max 0 (min sailAngle (Real.pi / 2))
  windDirection.multiplyScalar |Real.sin clamped|

end MainVariant

namespace Part000Variant

/-- `Forces.computeWindForce` of `part_000`: effectiveness `|cos sailAngle|`
with no clamping of the angle. -/
def computeWindForce (windDirection : Vec3) (sailAngle : ℝ) : Vec3 :=
  windDirection.multiplyScalar |Real.cos sailAngle|

end Part000Variant

/-- `Forces.computeNetForce` of `main.js`: gravity + buoyancy + wind force +
air resistance + water resistance, accumulated into a fresh zero vector. -/
def Forces.computeNetForce (f : Forces) (velocity windDirection : Vec3)
    (sailAngle : ℝ) : Vec3 :=
  ((((Vec3.zero.add f.gravity).add f.buoyancy).add
      (MainVariant.computeWindForce windDirection sailAngle)).add
    (f.computeAirResistance velocity)).add (f.computeWaterResistance velocity)

/-- `Forces.computeAcceleration`: `netForce / mass`. -/
def Forces.computeAcceleration (f : Forces) (netForce : Vec3) : Vec3 :=
  netForce.divideScalar f.mass

/-- `Forces.isAtRest`: exact equality of both the net-force magnitude and the
velocity magnitude with zero (`===` in the source). -/
def Forces.isAtRest (f : Forces) (velocity windDirection : Vec3)
    (sailAngle : ℝ) : Prop :=
  (f.computeNetForce velocity windDirection sailAngle).length = 0 ∧
    velocity.length = 0

/-- transform of the loaded gltf scene: position plus yaw, the only rotation
component either variant ever touches (`rotation.y`). -/
structure BoatObj where
  position : Vec3
  yaw : ℝ

/-- the `Boat` of `main.js`: wind-propelled.  `boat := none` models the
`this.boat = null` state before the asynchronous asset load completes. -/
structure WindBoat where
  forces : Forces
  velocity : Vec3
  acceleration : Vec3
  rotationSpeed : ℝ
  boat : Option BoatObj

/-- `Boat.update` of `main.js`: guarded by `if (this.boat)`; computes the net
force and acceleration, integrates velocity unless at rest, then advances the
position along the world heading `(sin yaw, 0, cos yaw)` scaled by
`velocity.length() * deltaTime`, and applies the kinematic yaw rate. -/
def WindBoat.update (b : WindBoat) (deltaTime : ℝ) (windDirection : Vec3)
    (sailAngle : ℝ) : WindBoat :=
  match b.boat with
  | none => b
  | some obj =>
    let netForce := b.forces.computeNetForce b.velocity windDirection sailAngle
    let acceleration := b.forces.computeAcceleration netForce
    let velocity :=
      if b.forces.isAtRest b.velocity windDirection sailAngle then b.velocity
      else b.velocity.add (acceleration.multiplyScalar deltaTime)
    let direction :=
      (Vec3.mk (Real.sin obj.yaw) 0 (Real.cos obj.yaw)).multiplyScalar
        (velocity.length * deltaTime)
    { b with
      acceleration := acceleration
      velocity := velocity
      boat := some ⟨obj.position.add direction,
        obj.yaw + b.rotationSpeed * deltaTime⟩ }

/-- a `WindBoat` as built by the `main.js` constructor, before the asset-load
callback has fired (`this.boat` still null). -/
def WindBoat.unready : WindBoat :=
  { forces := ⟨500, 2, 1000, 0.1⟩
    velocity := ⟨0, 0, 0⟩
    acceleration := ⟨0, 0, 0⟩
    rotationSpeed := 0
    boat := none }

/-- submerged volume as computed inside `Boat.update` of `part_001`:
`Math.max(0, volume * (1 - position.y / 2))`.  The reference depth is 2 and
there is no upper clamp. -/
def submergedVolume (volume y : ℝ) : ℝ :=
  max 0 (volume * (1 - y / 2))

/-- formulation of the submerged volume given by the spec sentence, for
comparison with the code: `baseVolume * clamp(1 - position.y / referenceDepth,
0, 1)` with referenceDepth 2. -/
def submergedVolumeSpec (volume y : ℝ) : ℝ :=
  volume * max 0 (min (1 - y / 2) 1)

/-- the `Sphere` of `part_001`: a point mass with a radius, used as the
collision partner of the boat. -/
structure Sphere where
  radius : ℝ
  mass : ℝ
  velocity : Vec3
  position : Vec3

/-- the sphere created in `init`: `new Sphere(new THREE.Vector3(0, 0, 100),
20, 500)` with zero initial velocity. -/
def sphere0 : Sphere := ⟨20, 500, ⟨0, 0, 0⟩, ⟨0, 0, 100⟩⟩

/-- the `Boat` of `part_001`: thrust-propelled, with torque-driven yaw.
`boat := none` models the state before the gltf asset loads; the source only
assigns `this.velocity`/`this.acceleration` inside the load callback, which
the embedding keeps as always-present fields (they are never read on the
unready paths: `update` returns first and `checkCollision` throws first). -/
structure Boat where
  mass : ℝ
  volume : ℝ
  waterDensity : ℝ
  inertia : ℝ
  angularVelocity : ℝ
  torque : ℝ
  thrust : ℝ
  rotationSpeed : ℝ
  radius : ℝ
  collided : Bool
  boat : Option BoatObj
  velocity : Vec3
  acceleration : Vec3

/-- `Boat.setMass` of `part_001`: stores the new mass unconditionally and
recomputes `inertia = (1/12) * mass * (2^2 + 2^2)`. -/
def Boat.setMass (b : Boat) (newMass : ℝ) : Boat :=
  { b with
    mass := newMass
    inertia := 1 / 12 * newMass * (2 ^ 2 + 2 ^ 2) }

/-- the `Boat` constructor of `part_001`: mass 3000, volume 1.5, water density
1000, inertia `(1/12) * 3000 * (2^2 + 2^2)`, radius 5, everything else zero,
and no loaded asset yet. -/
def Boat.construct : Boat :=
  { mass := 3000
    volume := 1.5
    waterDensity := 1000
    inertia := 1 / 12 * 3000 * (2 ^ 2 + 2 ^ 2)
    angularVelocity := 0
    torque := 0
    thrust := 0
    rotationSpeed := 0
    radius := 5
    collided := false
    boat := none
    velocity := ⟨0, 0, 0⟩
    acceleration := ⟨0, 0, 0⟩ }

/-- total force accumulated in `Boat.update` of `part_001`: gravity, buoyancy
from the submerged volume, quadratic drag `-0.1 * |v| * v`, and thrust along
the heading `(sin yaw, 0, cos yaw)` (the effect of `applyQuaternion` for a
yaw-only orientation). -/
def Boat.totalForce (b : Boat) (obj : BoatObj) : Vec3 :=
  let gravityForce : Vec3 := ⟨0, -b.mass * g, 0⟩
  let buoyancyForce : Vec3 :=
    ⟨0, b.waterDensity * submergedVolume b.volume obj.position.y * g, 0⟩
  let dragForce := b.velocity.multiplyScalar (-(0.1) * b.velocity.length)
  let thrustForce : Vec3 :=
    ⟨b.thrust * Real.sin obj.yaw, 0, b.thrust * Real.cos obj.yaw⟩
  (((Vec3.zero.add gravityForce).add buoyancyForce).add dragForce).add
    thrustForce

/-- velocity after the linear part of `Boat.update`: integrate the
acceleration, then apply the idle damping factor 0.98 when thrust is zero. -/
def Boat.stepVelocity (b : Boat) (obj : BoatObj) (deltaTime : ℝ) : Vec3 :=
  let acceleration := (b.totalForce obj).divideScalar b.mass
  let velocity1 := b.velocity.add (acceleration.multiplyScalar deltaTime)
  if b.thrust = 0 then velocity1.multiplyScalar 0.98 else velocity1

/-- position advanced by the stepped velocity, before the floor clamp. -/
def Boat.stepPosRaw (b : Boat) (obj : BoatObj) (deltaTime : ℝ) : Vec3 :=
  obj.position.add ((b.stepVelocity obj deltaTime).multiplyScalar deltaTime)

/-- `Boat.update` of `part_001`.  Returns immediately when the asset has not
loaded (`if (!this.boat) return`).  Otherwise: linear integration with idle
damping, position advance, the floor clamp at `y = -4` that also zeroes the
vertical velocity, and the angular step
`torque = thrust * 1 * sin(rotationSpeed)`, angular damping 0.95, yaw update. -/
def Boat.update (b : Boat) (deltaTime : ℝ) : Boat :=
  match b.boat with
  | none => b
  | some obj =>
    let acceleration := (b.totalForce obj).divideScalar b.mass
    let velocity2 := b.stepVelocity obj deltaTime
    let position1 := b.stepPosRaw obj deltaTime
    let position2 :=
      if position1.y < -4 then Vec3.mk position1.x (-4) position1.z
      else position1
    let velocity3 :=
      if position1.y < -4 then Vec3.mk velocity2.x 0 velocity2.z
      else velocity2
    let torque := b.thrust * 1 * Real.sin b.rotationSpeed
    let angularAcceleration := torque / b.inertia
    let angularVelocity1 := (b.angularVelocity + angularAcceleration * deltaTime) * 0.95
    { b with
      boat := some ⟨position2, obj.yaw + angularVelocity1 * deltaTime⟩
      velocity := velocity3
      acceleration := acceleration
      torque := torque
      angularVelocity := angularVelocity1 }

/-- `Boat.checkCollision` of `part_001`.  The very first statement reads
`this.boat.position`, so with no loaded asset the call throws a `TypeError`,
modelled as `Except.error`.  Otherwise the distance test uses
`this.radius + 50 + otherObject.radius`, sets `collided`, and on overlap runs
`handleCollision` on the boat/sphere velocities and masses. -/
def Boat.checkCollision (b : Boat) (s : Sphere) : Except Unit (Boat × Sphere) :=
  match b.boat with
  | none => Except.error ()
  | some obj =>
    let distance := obj.position.distanceTo s.position
    let collisionDistance := b.radius + 50 + s.radius
    if distance < collisionDistance then
      let r := handleCollision ⟨obj.position, b.velocity, b.mass⟩
        ⟨s.position, s.velocity, s.mass⟩
      Except.ok ({ b with collided := true, velocity := r.1.velocity },
        { s with velocity := r.2.velocity })
    else
      Except.ok ({ b with collided := false }, s)

/-- a loaded boat transform used as a concrete integration witness. -/
def wObj : BoatObj := ⟨⟨0, 0, 0⟩, 0⟩

/-- a concrete active thrust-model boat (zero velocity and thrust, unit mass,
no displaced volume) used to exercise the floor clamp. -/
def wBoat : Boat :=
  { mass := 1
    volume := 0
    waterDensity := 0
    inertia := 2000
    angularVelocity := 0
    torque := 0
    thrust := 0
    rotationSpeed := 0
    radius := 5
    collided := false
    boat := some wObj
    velocity := ⟨0, 0, 0⟩
    acceleration := ⟨0, 0, 0⟩ }

theorem normalize_zAxis (c : ℝ) (hc : 0 < c) :
    (Vec3.mk 0 0 c).normalize = ⟨0, 0, 1⟩ := by
  have hlen : (Vec3.mk 0 0 c).length = c := by
    simp only [Vec3.length, Vec3.lengthSq]
    rw [show (0 * 0 + 0 * 0 + c * c : ℝ) = c * c by ring]
    exact Real.sqrt_mul_self hc.le
  rw [Vec3.normalize, hlen, if_neg hc.ne', Vec3.divideScalar, Vec3.multiplyScalar]
  simp only [Vec3.mk.injEq]
  refine ⟨by ring, by ring, ?_⟩
  field_simp

theorem golden_sub : goldenA.position.sub goldenB.position = ⟨0, 0, 10⟩ := by
  simp only [goldenA, goldenB, Vec3.sub, Vec3.mk.injEq]
  norm_num

theorem goldenVAN : velocityAlongNormal goldenA goldenB = -5 := by
  rw [velocityAlongNormal, golden_sub, normalize_zAxis 10 (by norm_num)]
  simp [goldenA, goldenB, Vec3.sub, Vec3.dot]

theorem golden_eval :
    handleCollision goldenA goldenB =
      (⟨⟨0, 0, 0⟩, ⟨0, 0, -(3/4)⟩, 500⟩, ⟨⟨0, 0, -10⟩, ⟨0, 0, -(17/2000)⟩, 500⟩) := by
  have hn : (goldenA.position.sub goldenB.position).normalize = ⟨0, 0, 1⟩ := by
    rw [golden_sub]
    exact normalize_zAxis 10 (by norm_num)
  rw [handleCollision, if_neg (by rw [goldenVAN]; norm_num)]
  rw [hn, goldenVAN]
  simp only [goldenA, goldenB, Vec3.multiplyScalar, Vec3.divideScalar, Vec3.add,
    Vec3.sub, Prod.mk.injEq, CollisionBody.mk.injEq, Vec3.mk.injEq]
  norm_num

/-- C1: in the golden scenario (A: mass 500, velocity `(0,0,-5)`; B: mass 500,
at rest; head-on along z with restitution 0.7) the hand-computed impulse
scalar is 2125, so the formulas of the claim give A the velocity
`(0,0,-0.75)` and B the velocity `(0,0,-4.25)`.  The code does give A
`(0,0,-0.75)`, but because `divideScalar` mutates the shared impulse vector,
B receives only `impulse / (500 * 500)` and ends at `(0,0,-0.0085)`, not the
claimed `(0,0,-4.25)`. -/
theorem handleCollision_golden_velocities :
    (handleCollision goldenA goldenB).1.velocity = ⟨0, 0, -(3/4)⟩ ∧
      (handleCollision goldenA goldenB).2.velocity = ⟨0, 0, -(17/2000)⟩ ∧
      (handleCollision goldenA goldenB).2.velocity ≠ ⟨0, 0, -(17/4)⟩ := by
  rw [golden_eval]
  refine ⟨rfl, rfl, fun h => ?_⟩
  have hz := congrArg Vec3.z h
  norm_num at hz

/-- C2: on the golden pair (overlapping, `velocityAlongNormal = -5 <= 0`, so
an impulse is applied) the total momentum projected on the collision normal is
-2500 before `handleCollision` and -379.25 after it: the mutation of the
shared impulse vector makes the impulse applied to B 1/500 of the impulse
removed from A, so momentum along the normal is not conserved. -/
theorem handleCollision_golden_momentum :
    goldenA.mass * goldenA.velocity.dot
        ((goldenA.position.sub goldenB.position).normalize) +
      goldenB.mass * goldenB.velocity.dot
        ((goldenA.position.sub goldenB.position).normalize) ≠
    (handleCollision goldenA goldenB).1.mass *
        ((handleCollision goldenA goldenB).1.velocity.dot
          ((goldenA.position.sub goldenB.position).normalize)) +
      (handleCollision goldenA goldenB).2.mass *
        ((handleCollision goldenA goldenB).2.velocity.dot
          ((goldenA.position.sub goldenB.position).normalize)) := by
  have hn : (goldenA.position.sub goldenB.position).normalize = ⟨0, 0, 1⟩ := by
    rw [golden_sub]
    exact normalize_zAxis 10 (by norm_num)
  rw [hn, golden_eval]
  simp only [goldenA, goldenB, Vec3.dot]
  norm_num

theorem sep_sub : sepA.position.sub sepB.position = ⟨0, 0, 10⟩ := by
  simp only [sepA, sepB, Vec3.sub, Vec3.mk.injEq]
  norm_num

theorem sepVAN : velocityAlongNormal sepA sepB = 3 := by
  rw [velocityAlongNormal, sep_sub, normalize_zAxis 10 (by norm_num)]
  simp [sepA, sepB, Vec3.sub, Vec3.dot]

/-- C9: for a pair whose relative velocity along the collision normal is
positive, `handleCollision` returns both bodies unchanged, so any number of
repeated calls is a no-op. -/
theorem handleCollision_separating_iterate (a b : CollisionBody)
    (h : velocityAlongNormal a b > 0) (n : ℕ) :
    (fun p : CollisionBody × CollisionBody => handleCollision p.1 p.2)^[n] (a, b) =
      (a, b) := by
  have h1 : handleCollision a b = (a, b) := by rw [handleCollision, if_pos h]
  induction n with
  | zero => rfl
  | succ k ih =>
    rw [Function.iterate_succ_apply]
    have h2 : handleCollision (a, b).1 (a, b).2 = (a, b) := h1
    rw [h2]
    exact ih

/-- C9 witness: `sepA`/`sepB` separate at speed 3 along the normal and two
iterated calls leave the pair unchanged. -/
theorem handleCollision_separating_iterate_witness :
    velocityAlongNormal sepA sepB > 0 ∧
      (fun p : CollisionBody × CollisionBody => handleCollision p.1 p.2)^[2]
        (sepA, sepB) = (sepA, sepB) := by
  have h : velocityAlongNormal sepA sepB > 0 := by
    rw [sepVAN]
    norm_num
  exact ⟨h, handleCollision_separating_iterate sepA sepB h 2⟩

/-- C3 counterexample: at `position.y = -4` (the code's own floor and the
boat's initial height) with the default base volume 1.5, the code's submerged
volume is `max 0 (1.5 * 3) = 4.5`, three times the base displaced volume,
while the claimed clamped formula gives 1.5 — the upper clamp of the claim
does not exist in the code. -/
theorem submergedVolume_exceeds_base :
    submergedVolume (3/2) (-4) = 9/2 ∧ submergedVolumeSpec (3/2) (-4) = 3/2 ∧
      ¬ submergedVolume (3/2) (-4) ≤ 3/2 := by
  have h1 : submergedVolume (3/2) (-4) = 9/2 := by
    rw [submergedVolume, show ((3:ℝ)/2 * (1 - -4 / 2)) = 9/2 by norm_num]
    exact max_eq_right (by norm_num)
  have h2 : submergedVolumeSpec (3/2) (-4) = 3/2 := by
    rw [submergedVolumeSpec, show min (1 - (-4:ℝ) / 2) 1 = 1 by
      rw [min_eq_right (by norm_num)]]
    rw [max_eq_right (by norm_num)]
    norm_num
  refine ⟨h1, h2, ?_⟩
  rw [h1]
  norm_num

/-- C3 amended: the submerged volume used for buoyancy in `Boat.update` is
`max 0 (volume * (1 - y / 2))`: it is never negative, but it exceeds the base
volume whenever the body sits below the fluid plane; it stays at or below the
base volume only for `y >= 0` (and nonnegative base volume). -/
theorem submergedVolume_amended (volume y : ℝ) :
    0 ≤ submergedVolume volume y ∧
      (0 ≤ volume → 0 ≤ y → submergedVolume volume y ≤ volume) := by
  constructor
  · exact le_max_left 0 _
  · intro hv hy
    rw [submergedVolume]
    apply max_le hv
    calc volume * (1 - y / 2) ≤ volume * 1 :=
          mul_le_mul_of_nonneg_left (by linarith) hv
    _ = volume := mul_one _

/-- C3 witness: at base volume 1.5 and height 1 the submersion bounds hold. -/
theorem submergedVolume_amended_witness :
    0 ≤ submergedVolume (3/2) 1 ∧ submergedVolume (3/2) 1 ≤ 3/2 :=
  ⟨(submergedVolume_amended (3/2) 1).1,
    (submergedVolume_amended (3/2) 1).2 (by norm_num) (by norm_num)⟩

/-- C4 counterexample: the `part_000` variant of `computeWindForce` uses
`|cos sailAngle|` with no clamping, so at sail angle 0 it returns the full
wind direction instead of the zero force the claim requires. -/
theorem part000_windForce_zero_angle :
    Part000Variant.computeWindForce ⟨1, 0, 0⟩ 0 = ⟨1, 0, 0⟩ ∧
      Vec3.mk 1 0 0 ≠ Vec3.zero := by
  constructor
  · rw [Part000Variant.computeWindForce]
    simp [Real.cos_zero, Vec3.multiplyScalar]
  · intro h
    have hx := congrArg Vec3.x h
    norm_num [Vec3.zero] at hx

/-- C4 amended: the `main.js` variant does clamp the sail angle into
`[0, pi/2]`, scales the wind direction by `|sin|` of the clamped angle, gives
zero force at angle 0 and the full wind direction at `pi/2`; the `part_000`
variant instead scales by `|cos sailAngle|` with no clamping. -/
theorem computeWindForce_amended (windDirection : Vec3) (sailAngle : ℝ) :
    MainVariant.computeWindForce windDirection sailAngle =
        windDirection.multiplyScalar
          |Real.sin (max 0 (min sailAngle (Real.pi / 2)))| ∧
      MainVariant.computeWindForce windDirection 0 = Vec3.zero ∧
      MainVariant.computeWindForce windDirection (Real.pi / 2) = windDirection ∧
      Part000Variant.computeWindForce windDirection sailAngle =
        windDirection.multiplyScalar |Real.cos sailAngle| := by
  refine ⟨rfl, ?_, ?_, rfl⟩
  · have h0 : max 0 (min (0:ℝ) (Real.pi / 2)) = 0 := by
      rw [min_eq_left (by positivity), max_self]
    simp [MainVariant.computeWindForce, h0, Vec3.multiplyScalar, Vec3.zero]
  · rw [MainVariant.computeWindForce]
    rw [min_self, max_eq_right (by positivity : (0:ℝ) ≤ Real.pi / 2),
      Real.sin_pi_div_two]
    simp [Vec3.multiplyScalar]

/-- C5 counterexample: `setMass` with the nonpositive mass -1 is accepted
rather than rejected: the boat ends up with mass -1 and a negative moment of
inertia, and no failure path exists. -/
theorem setMass_accepts_nonpositive :
    (Boat.construct.setMass (-1)).mass = -1 ∧
      (Boat.construct.setMass (-1)).inertia < 0 := by
  refine ⟨rfl, ?_⟩
  show (1:ℝ) / 12 * (-1) * (2 ^ 2 + 2 ^ 2) < 0
  norm_num

/-- C5 amended: neither the `Forces` constructor nor `Boat.setMass` validates
its input: any mass, including nonpositive values, is stored as given, and
`setMass` recomputes `inertia = (1/12) * mass * (2^2 + 2^2)` from it. -/
theorem setMass_unvalidated (b : Boat) (m : ℝ) :
    (b.setMass m).mass = m ∧
      (b.setMass m).inertia = 1 / 12 * m * (2 ^ 2 + 2 ^ 2) ∧
      ∀ volumeDisplaced fluidDensity dragCoefficient : ℝ,
        (Forces.mk m volumeDisplaced fluidDensity dragCoefficient).mass = m :=
  ⟨rfl, rfl, fun _ _ _ => rfl⟩

/-- C6 counterexample: a freshly constructed thrust-model boat has no loaded
asset, and `checkCollision` on it is not a guarded no-op: its first statement
dereferences `this.boat.position` and throws, modelled as `Except.error`. -/
theorem unready_checkCollision_errors :
    Boat.construct.boat = none ∧
      Boat.construct.checkCollision sphere0 = Except.error () :=
  ⟨rfl, rfl⟩

/-- C6 amended: for an unready body, `update` of both variants is a guarded
no-op that leaves the whole state unchanged, but `checkCollision` is not
guarded: it raises an error instead of no-opping. -/
theorem unready_guarded_noop (wb : WindBoat) (dt : ℝ) (wd : Vec3) (sa : ℝ)
    (b : Boat) (dt2 : ℝ) (s : Sphere)
    (h1 : wb.boat = none) (h2 : b.boat = none) :
    wb.update dt wd sa = wb ∧ b.update dt2 = b ∧
      b.checkCollision s = Except.error () := by
  refine ⟨?_, ?_, ?_⟩
  · simp [WindBoat.update, h1]
  · simp [Boat.update, h2]
  · simp [Boat.checkCollision, h2]

/-- C6 witness: the freshly constructed boats of both variants are unready and
exhibit exactly the guarded/unguarded behaviour of the amended claim. -/
theorem unready_guarded_noop_witness :
    WindBoat.unready.update 1 ⟨1, 0, 0⟩ 0 = WindBoat.unready ∧
      Boat.construct.update 1 = Boat.construct ∧
      Boat.construct.checkCollision sphere0 = Except.error () :=
  unready_guarded_noop WindBoat.unready 1 ⟨1, 0, 0⟩ 0 Boat.construct 1 sphere0
    rfl rfl

theorem length_eq_zero_iff (v : Vec3) : v.length = 0 ↔ v = Vec3.zero := by
  constructor
  · intro h
    have h0 : v.lengthSq ≤ 0 := Real.sqrt_eq_zero'.mp h
    rw [Vec3.lengthSq] at h0
    have hx : v.x * v.x = 0 :=
      le_antisymm (by linarith [mul_self_nonneg v.y, mul_self_nonneg v.z])
        (mul_self_nonneg v.x)
    have hy : v.y * v.y = 0 :=
      le_antisymm (by linarith [mul_self_nonneg v.x, mul_self_nonneg v.z])
        (mul_self_nonneg v.y)
    have hz : v.z * v.z = 0 :=
      le_antisymm (by linarith [mul_self_nonneg v.x, mul_self_nonneg v.y])
        (mul_self_nonneg v.z)
    ext
    · exact mul_self_eq_zero.mp hx
    · exact mul_self_eq_zero.mp hy
    · exact mul_self_eq_zero.mp hz
  · rintro rfl
    rw [Vec3.length, Vec3.lengthSq]
    simp [Vec3.zero]

/-- C7: `isAtRest` holds exactly when both the net force (computed from the
current velocity, wind direction and sail angle) and the velocity are the
zero vector — an exact equality test, so any nonzero component of either
vector makes it false. -/
theorem isAtRest_iff (f : Forces) (velocity windDirection : Vec3)
    (sailAngle : ℝ) :
    f.isAtRest velocity windDirection sailAngle ↔
      (f.computeNetForce velocity windDirection sailAngle = Vec3.zero ∧
        velocity = Vec3.zero) := by
  rw [Forces.isAtRest, length_eq_zero_iff, length_eq_zero_iff]

/-- C8: after an update step of an active thrust-model boat, the vertical
position is at least the floor value -4, and whenever the pre-clamp position
was below the floor the vertical velocity component has been zeroed. -/
theorem update_floor_clamp (b : Boat) (obj : BoatObj) (dt : ℝ)
    (h : b.boat = some obj) :
    ∃ obj2, (b.update dt).boat = some obj2 ∧ -4 ≤ obj2.position.y ∧
      ((b.stepPosRaw obj dt).y < -4 → (b.update dt).velocity.y = 0) := by
  simp only [Boat.update, h]
  split_ifs with hc
  · exact ⟨_, rfl, by norm_num, fun _ => rfl⟩
  · exact ⟨_, rfl, le_of_not_lt hc, fun hcon => absurd hcon hc⟩

/-- C8 witness: a concrete active boat (unit mass, no buoyancy, zero thrust)
falls under gravity from height 0 to a pre-clamp height of -9.604 after one
step of length 1, so the clamp fires and the conclusion holds for it. -/
theorem update_floor_clamp_witness :
    (wBoat.stepPosRaw wObj 1).y < -4 ∧
      ∃ obj2, (wBoat.update 1).boat = some obj2 ∧ -4 ≤ obj2.position.y ∧
        ((wBoat.stepPosRaw wObj 1).y < -4 → (wBoat.update 1).velocity.y = 0) := by
  refine ⟨?_, update_floor_clamp wBoat wObj 1 rfl⟩
  simp [Boat.stepPosRaw, Boat.stepVelocity, Boat.totalForce, wBoat, wObj,
    Vec3.add, Vec3.multiplyScalar, Vec3.divideScalar, Vec3.zero,
    submergedVolume, g]
  norm_num

/-- C10: the wind-model update advances the position along the horizontal
heading `(sin yaw, 0, cos yaw)` scaled by speed, so the vertical position
after an update equals the vertical position before it, for loaded and
unloaded boats alike. -/
theorem windUpdate_preserves_posY (b : WindBoat) (dt : ℝ) (wd : Vec3)
    (sa : ℝ) :
    ((b.update dt wd sa).boat.map fun o => o.position.y) =
      b.boat.map fun o => o.position.y := by
  rcases hb : b.boat with _ | obj
  · simp [WindBoat.update, hb]
  · simp [WindBoat.update, hb, Vec3.add, Vec3.multiplyScalar]

end Sailing
